import Mathlib

/-!
Shallow embedding of the Hono/React-Router boilerplate backend
(middleware configuration, authentication, error translation, health
routes, CRUD handlers and pagination), with theorems checking the
natural-language specification against the code.
-/

namespace Boilerplate

/-- JSON values, used to model the bodies passed to Hono's `c.json`. -/
inductive Json where
  | str (s : String)
  | int (n : Int)
  | bool (b : Bool)
  | null
  | arr (xs : List Json)
  | obj (fields : List (String × Json))

/-- Field lookup in a JSON object (first match wins, like JS object keys). -/
def Json.getField : Json → String → Option Json
  | .obj fields, k => fields.lookup k
  | _, _ => none

/-- Environment variables relevant to the middleware configuration:
`NODE_ENV` and `FRONTEND_URL`.  `none` models an unset variable. -/
structure EnvVars where
  nodeEnv : Option String := none
  frontendUrl : Option String := none

/-- JavaScript `a || b` on optional env strings: the empty string is falsy. -/
def jsOrStr : Option String → Option String → Option String
  | some s, b => if s = "" then b else some s
  | none, b => b

/-- JavaScript truthiness of an optional env string. -/
def jsTruthy : Option String → Bool
  | some s => s ≠ ""
  | none => false

/-- Translation of the `requestId` field of `MiddlewareConfig`
(src/app/server/middleware/config.ts). -/
structure RequestIdConfig where
  enabled : Bool
  headerName : Option String := none

/-- Translation of the `logger` field of `MiddlewareConfig`. -/
structure LoggerToggle where
  enabled : Bool

/-- Translation of the `telemetry` field of `MiddlewareConfig`. -/
structure TelemetryConfig where
  enabled : Bool
  serviceName : Option String := none

/-- Translation of the `cors` field of `MiddlewareConfig` (the origin is the
static-string case used by `getMiddlewareConfig`). -/
structure CorsConfig where
  enabled : Bool
  origin : Option String := none
  credentials : Option Bool := none
  allowMethods : Option (List String) := none
  allowHeaders : Option (List String) := none
  exposeHeaders : Option (List String) := none
  maxAge : Option Nat := none

/-- Translation of the `secureHeaders` field of `MiddlewareConfig`. -/
structure SecureHeadersToggle where
  enabled : Bool
  strictMode : Option Bool := none

/-- Translation of the `compress` field of `MiddlewareConfig`. -/
structure CompressConfig where
  enabled : Bool
  encoding : Option String := none
  threshold : Option Nat := none

/-- Translation of `MiddlewareConfig`
(src/app/server/middleware/config.ts). -/
structure MiddlewareConfig where
  requestId : RequestIdConfig
  logger : LoggerToggle
  telemetry : TelemetryConfig
  cors : CorsConfig
  secureHeaders : SecureHeadersToggle
  compress : CompressConfig

/-- The `envVars` object after the `process.env` merge step of
`getMiddlewareConfig`: when `process` is defined, `NODE_ENV` and
`FRONTEND_URL` are overridden by `process.env.X || envVars.X`. -/
def mwMergedEnv (bindingEnv : EnvVars) (processEnv : Option EnvVars) : EnvVars :=
  match processEnv with
  | some p =>
    { nodeEnv := jsOrStr p.nodeEnv bindingEnv.nodeEnv
      frontendUrl := jsOrStr p.frontendUrl bindingEnv.frontendUrl }
  | none => bindingEnv

/-- The `isDevelopment` flag computed by `getMiddlewareConfig`:
`envVars.NODE_ENV === "development" || process.env?.NODE_ENV === "development"`. -/
def mwIsDevelopment (bindingEnv : EnvVars) (processEnv : Option EnvVars) : Bool :=
  ((mwMergedEnv bindingEnv processEnv).nodeEnv == some "development") ||
    (processEnv.elim false (fun p => p.nodeEnv == some "development"))

/-- The resolved environment tag seen by `getMiddlewareConfig` (the merged
`NODE_ENV`). -/
def mwResolvedNodeEnv (bindingEnv : EnvVars) (processEnv : Option EnvVars) : Option String :=
  (mwMergedEnv bindingEnv processEnv).nodeEnv

/-- JavaScript `a || d` for an optional env string against a string
default: a falsy probed value (absent or empty) yields the default. -/
def jsOrDefault (a : Option String) (d : String) : String :=
  if jsTruthy a then a.getD "" else d

/-- The `frontendUrl` fallback chain of `getMiddlewareConfig`:
`envVars.FRONTEND_URL || process.env?.FRONTEND_URL || "http://localhost:5173"`
(an empty probed string is falsy and falls through to the default). -/
def mwFrontendUrl (bindingEnv : EnvVars) (processEnv : Option EnvVars) : String :=
  jsOrDefault
    (jsOrStr (mwMergedEnv bindingEnv processEnv).frontendUrl
      (processEnv.elim none (·.frontendUrl)))
    "http://localhost:5173"

/-- Translation of `getMiddlewareConfig`
(src/app/server/middleware/config.ts).  `bindingEnv` is what `env<Env>(c)`
yields (empty when there is no context or it throws); `processEnv` is
`process.env` (`none` when `process` is undefined). -/
def getMiddlewareConfig (bindingEnv : EnvVars) (processEnv : Option EnvVars) :
    MiddlewareConfig :=
  let isDevelopment := mwIsDevelopment bindingEnv processEnv
  let isProduction := !isDevelopment
  let frontendUrl := mwFrontendUrl bindingEnv processEnv
  { requestId := { enabled := true, headerName := some "X-Request-Id" }
    logger := { enabled := true }
    telemetry := { enabled := isProduction, serviceName := some "panya-api" }
    cors :=
      { enabled := true
        origin := some frontendUrl
        credentials := some true
        allowMethods := some ["GET", "POST", "PUT", "DELETE", "PATCH", "OPTIONS"]
        allowHeaders := some ["Content-Type", "Authorization"]
        exposeHeaders := some []
        maxAge := some 86400 }
    secureHeaders := { enabled := true, strictMode := some isProduction }
    compress := { enabled := false, encoding := some "gzip", threshold := some 1024 } }

/-- Content-Security-Policy directives used by `getSecureHeadersConfig`
(src backend secure-headers middleware).  `upgradeInsecureRequests` records
whether the directive is present. -/
structure Csp where
  defaultSrc : List String
  scriptSrc : List String
  styleSrc : List String
  imgSrc : List String
  connectSrc : List String
  fontSrc : List String
  objectSrc : List String
  mediaSrc : List String
  frameSrc : List String
  upgradeInsecureRequests : Bool

/-- Translation of the secure-headers configuration object built by
`getSecureHeadersConfig`.  `strictTransportSecurity := none` models the
JS value `false` (header disabled). -/
structure SecureHeadersConfig where
  contentSecurityPolicy : Csp
  crossOriginEmbedderPolicy : Bool
  crossOriginResourcePolicy : String
  crossOriginOpenerPolicy : String
  referrerPolicy : String
  strictTransportSecurity : Option String
  xContentTypeOptions : String
  xDnsPrefetchControl : String
  xDownloadOptions : String
  xFrameOptions : String
  xPermittedCrossDomainPolicies : String
  xXssProtection : String

/-- The `isDevelopment` flag computed by `getSecureHeadersConfig`:
`envVars.NODE_ENV === "development" || process.env?.NODE_ENV === "development"`. -/
def shIsDevelopment (envVars : EnvVars) (processEnv : Option EnvVars) : Bool :=
  (envVars.nodeEnv == some "development") ||
    (processEnv.elim false (fun p => p.nodeEnv == some "development"))

/-- The development-mode CSP of `getSecureHeadersConfig` (permits
inline/eval scripts for easier debugging). -/
def devCsp : Csp :=
  { defaultSrc := ["\x27self\x27"]
    scriptSrc := ["\x27self\x27", "\x27unsafe-inline\x27", "\x27unsafe-eval\x27",
      "https://cdn.jsdelivr.net", "https://unpkg.com"]
    styleSrc := ["\x27self\x27", "\x27unsafe-inline\x27", "https:",
      "https://cdn.jsdelivr.net", "https://unpkg.com"]
    imgSrc := ["\x27self\x27", "data:", "https:"]
    connectSrc := ["\x27self\x27", "https:"]
    fontSrc := ["\x27self\x27", "https:", "data:", "https://cdn.jsdelivr.net"]
    objectSrc := ["\x27none\x27"]
    mediaSrc := ["\x27self\x27"]
    frameSrc := ["\x27self\x27"]
    upgradeInsecureRequests := false }

/-- The production-mode CSP of `getSecureHeadersConfig` (no inline/eval,
adds `upgrade-insecure-requests`). -/
def prodCsp : Csp :=
  { defaultSrc := ["\x27self\x27"]
    scriptSrc := ["\x27self\x27", "https://cdn.jsdelivr.net", "https://unpkg.com"]
    styleSrc := ["\x27self\x27", "https:", "https://cdn.jsdelivr.net", "https://unpkg.com"]
    imgSrc := ["\x27self\x27", "data:", "https:"]
    connectSrc := ["\x27self\x27", "https:"]
    fontSrc := ["\x27self\x27", "https:", "data:", "https://cdn.jsdelivr.net"]
    objectSrc := ["\x27none\x27"]
    mediaSrc := ["\x27self\x27"]
    frameSrc := ["\x27self\x27"]
    upgradeInsecureRequests := true }

/-- Translation of `getSecureHeadersConfig` (the secure-headers builder in
the backend middleware).  `envVars` is what `env<Env>(c)` yields;
`processEnv` is `process.env` (`none` when `process` is undefined). -/
def getSecureHeadersConfig (envVars : EnvVars) (processEnv : Option EnvVars) :
    SecureHeadersConfig :=
  let isDevelopment := shIsDevelopment envVars processEnv
  { contentSecurityPolicy := if isDevelopment then devCsp else prodCsp
    crossOriginEmbedderPolicy := false
    crossOriginResourcePolicy := "same-origin"
    crossOriginOpenerPolicy := "same-origin"
    referrerPolicy := "strict-origin-when-cross-origin"
    strictTransportSecurity :=
      if isDevelopment then none
      else some "max-age=63072000; includeSubDomains; preload"
    xContentTypeOptions := "nosniff"
    xDnsPrefetchControl := "off"
    xDownloadOptions := "noopen"
    xFrameOptions := "SAMEORIGIN"
    xPermittedCrossDomainPolicies := "none"
    xXssProtection := "0" }

/-- Whether the first character list is an initial segment of the second. -/
def leadsWith : List Char → List Char → Bool
  | [], _ => true
  | _ :: _, [] => false
  | a :: as, b :: bs => a == b && leadsWith as bs

/-- Whether the first character list occurs contiguously in the second. -/
def occursIn : List Char → List Char → Bool
  | sub, [] => leadsWith sub []
  | sub, c :: t => leadsWith sub (c :: t) || occursIn sub t

/-- JavaScript's `String.prototype.includes`: substring occurrence. -/
def jsIncludes (s sub : String) : Bool :=
  occursIn sub.data s.data

/-- Environment variables relevant to the Clerk middleware, each probed
first from the platform binding (`env<Env>(c)`) and then from `process.env`
(src/app/backend/middleware/clerk.ts). -/
structure ClerkEnv where
  bindingSecretKey : Option String := none
  processSecretKey : Option String := none
  bindingVitePublishableKey : Option String := none
  bindingPublishableKey : Option String := none
  processVitePublishableKey : Option String := none
  processPublishableKey : Option String := none

/-- Translation of `getClerkSecretKey`: probe the binding, then
`process.env`; throw (modelled as `.error` with the thrown `Error`'s
message) when neither is set. -/
def getClerkSecretKey (e : ClerkEnv) : Except String String :=
  if jsTruthy e.bindingSecretKey then .ok (e.bindingSecretKey.getD "")
  else if jsTruthy e.processSecretKey then .ok (e.processSecretKey.getD "")
  else .error "CLERK_SECRET_KEY must be set in environment variables"

/-- Translation of `getClerkPublishableKey`: probe
`VITE_CLERK_PUBLISHABLE_KEY` then `CLERK_PUBLISHABLE_KEY` on the binding,
then the same pair on `process.env`; throw when none is set. -/
def getClerkPublishableKey (e : ClerkEnv) : Except String String :=
  if jsTruthy e.bindingVitePublishableKey then .ok (e.bindingVitePublishableKey.getD "")
  else if jsTruthy e.bindingPublishableKey then .ok (e.bindingPublishableKey.getD "")
  else if jsTruthy e.processVitePublishableKey then .ok (e.processVitePublishableKey.getD "")
  else if jsTruthy e.processPublishableKey then .ok (e.processPublishableKey.getD "")
  else .error "VITE_CLERK_PUBLISHABLE_KEY (or CLERK_PUBLISHABLE_KEY) must be set in environment variables"

/-- Outcome of running the external Clerk SDK middleware and `getAuth` on a
request: the SDK is an external collaborator, so its verdict is a
parameter.  `unauthenticated` models `getAuth` yielding no `userId`
(missing or rejected token); `sdkThrow m st` models the SDK's promise
rejecting with an `Error` carrying message `m` and stack `st` (e.g. for
an expired or malformed token). -/
inductive SdkOutcome where
  | authenticated (userId : String)
  | unauthenticated
  | sdkThrow (message : String) (stack : String)

/-- Values thrown inside route handlers, as classified by the centralized
error handler: typed `HTTPException`s, objects exposing an ORM `code`
(Prisma errors, which are also `Error` instances and carry a message and
stack), objects exposing validation `issues`, plain `Error` instances, and
non-`Error` thrown values. -/
inductive ThrownError where
  | httpException (status : Nat) (message : String) (cause : Option Json)
  | withCode (code : String) (message : String) (stack : String)
  | withIssues (issues : List (List String × String))
  | jsError (message : String) (stack : String)
  | nonErrorValue

/-- The `isDevelopment` flag computed inside `errorHandler`
(src/unnamed/part_017): `getRuntimeKey() !== "workerd" ||
process.env.NODE_ENV === "development"`.  `procNodeEnv = none` covers both
an undefined `process` and an unset variable. -/
def errDevMode (runtimeKey : String) (procNodeEnv : Option String) : Bool :=
  (runtimeKey != "workerd") || (procNodeEnv == some "development")

/-- The error envelope `{ error: { message, code, details? }, timestamp,
path }` as built by `errorHandler`; `details` is included only when
present. -/
def errEnvelope (message : String) (code : String) (details : Option Json)
    (timestamp path : String) : Json :=
  .obj
    [("error",
       .obj ([("message", .str message), ("code", .str code)] ++
         (match details with
          | some d => [("details", d)]
          | none => [])))
     , ("timestamp", .str timestamp), ("path", .str path)]

/-- Translation of the classification logic of `errorHandler`
(src/unnamed/part_017), given the already-computed `isDevelopment` flag,
the request path and the serialized timestamp: returns the HTTP status and
JSON body of the response.  Branch order follows the source:
`HTTPException`, ORM `code` (`P2002`, `P2025`), validation `issues`,
generic. -/
def errorHandler (isDev : Bool) (path timestamp : String) (e : ThrownError) :
    Nat × Json :=
  match e with
  | .httpException status message cause =>
    (status,
      errEnvelope message (toString status)
        (if isDev then cause else none) timestamp path)
  | .withCode code message stack =>
    if code = "P2002" then
      (409,
        errEnvelope "A record with this value already exists"
          "UNIQUE_CONSTRAINT_VIOLATION" none timestamp path)
    else if code = "P2025" then
      (404, errEnvelope "Record not found" "NOT_FOUND" none timestamp path)
    else
      (500,
        errEnvelope (if isDev then message else "Internal server error")
          "INTERNAL_SERVER_ERROR"
          (if isDev then some (.str stack) else none) timestamp path)
  | .withIssues issues =>
    (400,
      errEnvelope "Validation failed" "VALIDATION_ERROR"
        (some (.arr (issues.map (fun i =>
          .obj [("path", .str (String.intercalate "." i.1)),
                ("message", .str i.2)]))))
        timestamp path)
  | .jsError message stack =>
    (500,
      errEnvelope (if isDev then message else "Internal server error")
        "INTERNAL_SERVER_ERROR"
        (if isDev then some (.str stack) else none) timestamp path)
  | .nonErrorValue =>
    (500,
      errEnvelope (if isDev then "An unexpected error occurred" else "Internal server error")
        "INTERNAL_SERVER_ERROR" none timestamp path)

/-- Translation of `errorHandler` with the `isDevelopment` flag computed
from the runtime key and `process.env.NODE_ENV` as in the source. -/
def errorHandlerFull (runtimeKey : String) (procNodeEnv : Option String)
    (path timestamp : String) (e : ThrownError) : Nat × Json :=
  errorHandler (errDevMode runtimeKey procNodeEnv) path timestamp e

/-- Translation of `notFoundHandler` (src/unnamed/part_017). -/
def notFoundHandler (path timestamp : String) : Nat × Json :=
  (404, errEnvelope "Route not found" "NOT_FOUND" none timestamp path)

/-- The `catch` block of `clerkAuth` applied to a caught non-`HTTPException`
`Error` with message `m`: messages containing "Unauthorized" or "Invalid"
are rethrown as `HTTPException 401`, everything else as `HTTPException
500`.  Because the `try` block returns the SDK middleware's promise
without `await`, only the synchronous key-resolution throws of
`createClerkMiddleware` ever reach this catch — asynchronous SDK
rejections bypass it. -/
def clerkCatch (m : String) : ThrownError :=
  if jsIncludes m "Unauthorized" || jsIncludes m "Invalid" then
    .httpException 401 "Unauthorized: Invalid or expired token" none
  else
    .httpException 500 "Authentication error" none

/-- Translation of `clerkAuth` (src/app/backend/middleware/clerk.ts):
`createClerkMiddleware` resolves both keys synchronously (throwing on
absence, caught and reclassified by the catch block), then the try block
returns the SDK middleware's promise **without `await`**, so everything
thrown asynchronously inside it escapes `clerkAuth` uncaught: a missing
`userId` escapes as the `HTTPException 401` ("Authentication required")
raised in the callback, and an SDK rejection escapes as the raw `Error`.
`.ok uid` means control proceeds to the route; `.error t` is the value
that propagates to the central `errorHandler`. -/
def clerkAuthThrown (e : ClerkEnv) (outcome : SdkOutcome) :
    Except ThrownError String :=
  match getClerkSecretKey e with
  | .error m => .error (clerkCatch m)
  | .ok _ =>
    match getClerkPublishableKey e with
    | .error m => .error (clerkCatch m)
    | .ok _ =>
      match outcome with
      | .authenticated uid => .ok uid
      | .unauthenticated =>
        .error (.httpException 401 "Unauthorized: Authentication required" none)
      | .sdkThrow m st => .error (.jsError m st)

/-- The response a client observes from a `clerkAuth`-guarded route when
authentication does not succeed: the escaping thrown value rendered by
the central `errorHandler` (`none` when control proceeds to the route). -/
def clerkAuthResponse (e : ClerkEnv) (outcome : SdkOutcome) (isDev : Bool)
    (path timestamp : String) : Option (Nat × Json) :=
  match clerkAuthThrown e outcome with
  | .ok _ => none
  | .error t => some (errorHandler isDev path timestamp t)

/-- Translation of `GET /health` (src/unnamed/part_020): always 200 with
`status`, `timestamp`, `service`. -/
def healthRoot (timestamp : String) : Nat × Json :=
  (200, .obj [("status", .str "ok"), ("timestamp", .str timestamp),
              ("service", .str "panya-api")])

/-- Translation of `GET /health/ready` (src/unnamed/part_020): when a
Prisma client is attached, the probe query `SELECT 1` runs and may throw
(`probeOk = false`); when none is attached no probe runs and nothing can
throw.  The catch branch answers 503 with `database: "disconnected"` and
the thrown error's message (`none` models a non-`Error` thrown value,
rendered as "Unknown error"). -/
def healthReady (prismaAttached probeOk : Bool) (timestamp : String)
    (errMessage : Option String) : Nat × Json :=
  if prismaAttached && !probeOk then
    (503, .obj [("status", .str "not ready"), ("timestamp", .str timestamp),
                ("database", .str "disconnected"),
                ("error", .str (errMessage.getD "Unknown error"))])
  else
    (200, .obj [("status", .str "ready"), ("timestamp", .str timestamp),
                ("database", .str "connected")])

/-- Translation of `GET /health/live` (src/unnamed/part_020). -/
def healthLive (timestamp : String) : Nat × Json :=
  (200, .obj [("status", .str "alive"), ("timestamp", .str timestamp)])

/-- Whether a JSON value has the error-envelope shape
`{ error: { message, code?, details? }, timestamp, path }` of the spec:
exactly the keys `error`, `timestamp`, `path` at top level, with `error` an
object holding a string `message` and at most the keys `message`, `code`,
`details`. -/
def isErrorEnvelope : Json → Bool
  | .obj fields =>
    (fields.map Prod.fst) = ["error", "timestamp", "path"] &&
    (match fields.lookup "error" with
     | some (.obj inner) =>
       (match inner.lookup "message" with
        | some (.str _) => true
        | _ => false) &&
       (inner.map Prod.fst).all (fun k => k = "message" || k = "code" || k = "details")
     | _ => false)
  | _ => false

/-- Log levels of the structured logger
(src/app/server/middleware/logger.ts). -/
inductive LogLevel where
  | debug
  | info
  | warn
  | error
deriving DecidableEq

/-- The ordered `levels` array of `shouldLog`. -/
def logLevels : List LogLevel := [.debug, .info, .warn, .error]

/-- Position of a level in the `levels` array (`Array.indexOf`; every
`LogLevel` occurs, so the missing case never arises). -/
def levelIndex (l : LogLevel) : Nat := logLevels.indexOf l

/-- The total severity order of the spec, debug < info < warn < error,
stated independently of the code's `indexOf` computation. -/
def levelRank : LogLevel → Nat
  | .debug => 0
  | .info => 1
  | .warn => 2
  | .error => 3

/-- Translation of `shouldLog`: a message is emitted when its level's
index is at least the configured level's index. -/
def shouldLog (configuredLevel messageLevel : LogLevel) : Bool :=
  levelIndex messageLevel ≥ levelIndex configuredLevel

/-- Severity assigned to the request-completion record by
`createStructuredLogger`: `error` for status ≥ 500, `warn` for status ≥
400, `info` otherwise. -/
def statusToLevel (status : Nat) : LogLevel :=
  if status ≥ 500 then .error
  else if status ≥ 400 then .warn
  else .info

/-- Whether `createStructuredLogger` emits the "Request completed" record
for a response status under a configured minimum level: the record is
logged when `shouldLog(logLevel, level)` holds for the status-derived
level. -/
def completionEmitted (configuredLevel : LogLevel) (status : Nat) : Bool :=
  shouldLog configuredLevel (statusToLevel status)

/-- JavaScript numbers as they arise from `parseInt` and the pagination
arithmetic: an integer, `NaN`, or a signed infinity. -/
inductive JsNum where
  | nan
  | posInf
  | negInf
  | num (n : Int)
deriving DecidableEq

/-- JavaScript subtraction on `JsNum`. -/
def jsSub : JsNum → JsNum → JsNum
  | .nan, _ => .nan
  | _, .nan => .nan
  | .num a, .num b => .num (a - b)
  | .posInf, .posInf => .nan
  | .posInf, _ => .posInf
  | .negInf, .negInf => .nan
  | .negInf, _ => .negInf
  | .num _, .posInf => .negInf
  | .num _, .negInf => .posInf

/-- JavaScript multiplication on `JsNum` (zero times infinity is `NaN`). -/
def jsMul : JsNum → JsNum → JsNum
  | .nan, _ => .nan
  | _, .nan => .nan
  | .num a, .num b => .num (a * b)
  | .num a, .posInf => if 0 < a then .posInf else if a < 0 then .negInf else .nan
  | .num a, .negInf => if 0 < a then .negInf else if a < 0 then .posInf else .nan
  | .posInf, .num b => if 0 < b then .posInf else if b < 0 then .negInf else .nan
  | .negInf, .num b => if 0 < b then .negInf else if b < 0 then .posInf else .nan
  | .posInf, .posInf => .posInf
  | .posInf, .negInf => .negInf
  | .negInf, .posInf => .negInf
  | .negInf, .negInf => .posInf

/-- Ceiling of the exact quotient of two integers, `b ≠ 0` (for positive
`b`, Euclidean division floors, so add one unless the remainder vanishes;
for negative `b` Euclidean division already rounds up). -/
def intCeilDiv (a b : Int) : Int :=
  if 0 < b then (if Int.emod a b = 0 then Int.ediv a b else Int.ediv a b + 1)
  else Int.ediv a b

/-- The composite JavaScript expression `Math.ceil(x / y)` on `JsNum`
(division by zero yields a signed infinity or `NaN`, whose ceiling is
itself; a finite value over an infinity is a signed zero, whose ceiling
is zero). -/
def jsCeilDiv : JsNum → JsNum → JsNum
  | .nan, _ => .nan
  | _, .nan => .nan
  | .num a, .num b =>
    if b = 0 then (if 0 < a then .posInf else if a < 0 then .negInf else .nan)
    else .num (intCeilDiv a b)
  | .num _, .posInf => .num 0
  | .num _, .negInf => .num 0
  | .posInf, .num b => if b < 0 then .negInf else .posInf
  | .negInf, .num b => if b < 0 then .posInf else .negInf
  | .posInf, .posInf => .nan
  | .posInf, .negInf => .nan
  | .negInf, .posInf => .nan
  | .negInf, .negInf => .nan

/-- The numeric value of a run of decimal digits. -/
def digitsToNat (cs : List Char) : Nat :=
  cs.foldl (fun acc c => acc * 10 + (c.toNat - 48)) 0

/-- Translation of JavaScript `parseInt(s, 10)`: skip leading whitespace,
read an optional sign and then the longest prefix of decimal digits;
`NaN` when no digit follows. -/
def parseIntJs (s : String) : JsNum :=
  let cs := s.data.dropWhile (fun c => c = ' ' || c = '\t' || c = '\n' || c = '\r')
  match cs with
  | '-' :: t =>
    let ds := t.takeWhile Char.isDigit
    if ds.isEmpty then .nan else .num (-(digitsToNat ds : Int))
  | '+' :: t =>
    let ds := t.takeWhile Char.isDigit
    if ds.isEmpty then .nan else .num (digitsToNat ds)
  | t =>
    let ds := t.takeWhile Char.isDigit
    if ds.isEmpty then .nan else .num (digitsToNat ds)

/-- Translation of the transform in `paginationSchema`
(src/app/backend/schemas/user.ts): `(val) => (val ? parseInt(val, 10) :
dflt)` on an optional query-string value — `undefined` and the empty
string are falsy and yield the default. -/
def paginationTransform (val : Option String) (dflt : Int) : JsNum :=
  if jsTruthy val then parseIntJs (val.getD "") else .num dflt

/-- The validated pagination query object. -/
structure PaginationQuery where
  page : JsNum
  limit : JsNum
deriving DecidableEq

/-- Translation of parsing a request's query against `paginationSchema`:
both fields are optional strings whose transforms are total, so the
validator always succeeds (an `Except` is used to record that the zod
pipeline could in principle reject with a list of issues). -/
def paginationParse (page limit : Option String) :
    Except (List (List String × String)) PaginationQuery :=
  .ok { page := paginationTransform page 1, limit := paginationTransform limit 10 }

/-- The pagination object returned by the list handlers:
`{ page, limit, total, totalPages: Math.ceil(total / limit) }`
(src/app/backend/routes/users.ts and posts.ts). -/
structure PaginationJson where
  page : JsNum
  limit : JsNum
  total : Int
  totalPages : JsNum
deriving DecidableEq

/-- Translation of the pagination object computed by `GET /users` and
`GET /posts`. -/
def listPagination (page limit : JsNum) (total : Int) : PaginationJson :=
  { page := page, limit := limit, total := total,
    totalPages := jsCeilDiv (.num total) limit }

/-- The `skip` expression of the list handlers: `(page - 1) * limit`. -/
def listSkip (page limit : JsNum) : JsNum :=
  jsMul (jsSub page (.num 1)) limit

/-- Translation of `findMany({ skip, take })` on the ordered rows for
non-negative integer skip/take values (Prisma renders them as SQL
OFFSET/LIMIT). -/
def listSlice {α : Type} (rows : List α) (page limit : Nat) : List α :=
  (rows.drop ((page - 1) * limit)).take limit

/-- A persisted User row (id integer primary, email unique, optional
name), per the data model. -/
structure User where
  id : Int
  email : String
  name : Option String
deriving DecidableEq

/-- A persisted Post row (id integer primary, required title, optional
content, published flag, required author foreign key), per the data
model. -/
structure Post where
  id : Int
  title : String
  content : Option String
  published : Bool
  authorId : Int
deriving DecidableEq

/-- Database state: the two persisted tables. -/
structure DB where
  users : List User
  posts : List Post
deriving DecidableEq

/-- JSON serialization of a User row (the `posts` relation included by
the handlers is elided — the claims only concern scalar fields). -/
def userJson (u : User) : Json :=
  .obj [("id", .int u.id), ("email", .str u.email),
        ("name", u.name.elim Json.null Json.str)]

/-- JSON serialization of a Post row (the included `author` selection is
elided). -/
def postJson (p : Post) : Json :=
  .obj [("id", .int p.id), ("title", .str p.title),
        ("content", p.content.elim Json.null Json.str),
        ("published", .bool p.published), ("authorId", .int p.authorId)]

/-- Modelled from the spec: the ORM's `user.findUnique({ where: { id } })`
against a database state (the generated Prisma client and schema are
external to src/) — the user with the given id, if any. -/
def userFindUnique (db : DB) (id : Int) : Option User :=
  db.users.find? (fun u => u.id == id)

/-- Modelled from the spec: the ORM's `user.create` under the
unique-email invariant of the data model — it raises a Prisma error with
code `P2002` when a user with the same email is already persisted, and
otherwise appends a row with a fresh generated id.  The Prisma error's
message and stack are abstract parameters. -/
def userCreate (db : DB) (email : String) (name : Option String)
    (errMessage errStack : String) : Except ThrownError (User × DB) :=
  if db.users.any (fun u => u.email == email) then
    .error (.withCode "P2002" errMessage errStack)
  else
    let newUser : User :=
      { id := (db.users.map User.id).foldr max 0 + 1, email := email, name := name }
    .ok (newUser, { db with users := db.users ++ [newUser] })

/-- Modelled from the spec: the ORM's `post.create` appends a row with a
fresh generated id. -/
def postCreate (db : DB) (title : String) (content : Option String)
    (published : Bool) (authorId : Int) : Post × DB :=
  let newPost : Post :=
    { id := (db.posts.map Post.id).foldr max 0 + 1, title := title,
      content := content, published := published, authorId := authorId }
  (newPost, { db with posts := db.posts ++ [newPost] })

/-- Validated body of `POST /users` (`createUserSchema`). -/
structure CreateUserInput where
  email : String
  name : Option String

/-- Validated body of `POST /posts` (`createPostSchema`). -/
structure CreatePostInput where
  title : String
  content : Option String
  published : Bool
  authorId : Int

/-- Translation of the `POST /` handler of
src/app/backend/routes/users.ts: try `prisma.user.create`; a caught error
carrying code `P2002` becomes `HTTPException 409 "User with this email
already exists"`, anything else is rethrown; success answers 201 with
`{ data: user }`. -/
def usersPostHandler (db : DB) (input : CreateUserInput)
    (errMessage errStack : String) : Except ThrownError ((Nat × Json) × DB) :=
  match userCreate db input.email input.name errMessage errStack with
  | .ok (u, db2) => .ok ((201, .obj [("data", userJson u)]), db2)
  | .error e =>
    match e with
    | .withCode "P2002" _ _ =>
      .error (.httpException 409 "User with this email already exists" none)
    | _ => .error e

/-- The `POST /users` route as observed by a client: the handler's
response, or the thrown error translated by `errorHandler`; the database
is unchanged when an error is raised. -/
def usersPostRoute (db : DB) (input : CreateUserInput)
    (errMessage errStack : String) (isDev : Bool) (path timestamp : String) :
    (Nat × Json) × DB :=
  match usersPostHandler db input errMessage errStack with
  | .ok r => r
  | .error e => (errorHandler isDev path timestamp e, db)

/-- Translation of the `POST /` handler of
src/app/backend/routes/posts.ts: verify the author exists via
`prisma.user.findUnique`, raising `HTTPException 404 "Author not found"`
otherwise, then create the post; the catch block rethrows everything
unchanged. -/
def postsPostHandler (db : DB) (input : CreatePostInput) :
    Except ThrownError ((Nat × Json) × DB) :=
  match userFindUnique db input.authorId with
  | none => .error (.httpException 404 "Author not found" none)
  | some _ =>
    let r := postCreate db input.title input.content input.published input.authorId
    .ok ((201, .obj [("data", postJson r.1)]), r.2)

/-- The `POST /posts` route as observed by a client: the handler's
response, or the thrown error translated by `errorHandler`; the database
is unchanged when an error is raised. -/
def postsPostRoute (db : DB) (input : CreatePostInput) (isDev : Bool)
    (path timestamp : String) : (Nat × Json) × DB :=
  match postsPostHandler db input with
  | .ok r => r
  | .error e => (errorHandler isDev path timestamp e, db)

/-- Translation of the `GET /` list handler of
src/app/backend/routes/users.ts for integer page/limit values: the data
slice uses `skip = (page - 1) * limit` and `take = limit`, `total` is the
row count, and the pagination object carries
`totalPages = Math.ceil(total / limit)`. -/
def usersGetList (rows : List User) (page limit : Nat) :
    List User × PaginationJson :=
  (listSlice rows page limit,
   listPagination (.num page) (.num limit) rows.length)

/-- Translation of the `GET /` list handler of
src/app/backend/routes/posts.ts for integer page/limit values (same shape
as the users list handler). -/
def postsGetList (rows : List Post) (page limit : Nat) :
    List Post × PaginationJson :=
  (listSlice rows page limit,
   listPagination (.num page) (.num limit) rows.length)

/-- A concrete one-user database state, used to instantiate theorems. -/
def sampleDb : DB :=
  { users := [{ id := 1, email := "a@x.com", name := some "A" }], posts := [] }

/-- A concrete post-creation body whose author id matches no user of
`sampleDb`. -/
def samplePostInput : CreatePostInput :=
  { title := "T", content := none, published := false, authorId := 999999 }

/-- A concrete user-creation body reusing the email persisted in
`sampleDb`. -/
def sampleUserInput : CreateUserInput :=
  { email := "a@x.com", name := some "A" }

/-- The `error.message` field of an emitted response. -/
def errMessageOf (r : Nat × Json) : Option Json :=
  (r.2.getField "error").bind (fun e => e.getField "message")

/-- The `error.code` field of an emitted response. -/
def errCodeOf (r : Nat × Json) : Option Json :=
  (r.2.getField "error").bind (fun e => e.getField "code")

/-- For a positive divisor, `intCeilDiv` computes the mathematical ceiling
of the exact quotient. -/
theorem intCeilDiv_eq_ceil (a b : ℤ) (hb : 0 < b) :
    intCeilDiv a b = ⌈(a : ℚ) / (b : ℚ)⌉ := by
  have hbQ : (0:ℚ) < (b : ℚ) := by exact_mod_cast hb
  have hmod : 0 ≤ Int.emod a b := Int.emod_nonneg a hb.ne'
  have hlt : Int.emod a b < b := Int.emod_lt_of_pos a hb
  have hdm : b * Int.ediv a b + Int.emod a b = a := Int.ediv_add_emod a b
  symm
  rw [Int.ceil_eq_iff]
  unfold intCeilDiv
  rw [if_pos hb]
  by_cases h : Int.emod a b = 0
  · rw [if_pos h]
    constructor
    · rw [lt_div_iff₀ hbQ]
      rw [show ((Int.ediv a b : ℚ)) - 1 = ((Int.ediv a b - 1 : ℤ) : ℚ) by push_cast; ring]
      rw [show ((b : ℚ)) = ((b : ℤ) : ℚ) from rfl, ← Int.cast_mul, Int.cast_lt]
      nlinarith
    · rw [div_le_iff₀ hbQ]
      rw [show ((Int.ediv a b : ℚ)) * b = ((Int.ediv a b * b : ℤ) : ℚ) by push_cast; ring]
      rw [Int.cast_le]
      nlinarith
  · rw [if_neg h]
    constructor
    · rw [lt_div_iff₀ hbQ]
      rw [show ((Int.ediv a b + 1 : ℤ) : ℚ) - 1 = ((Int.ediv a b : ℤ) : ℚ) by push_cast; ring]
      rw [show ((Int.ediv a b : ℤ) : ℚ) * b = ((Int.ediv a b * b : ℤ) : ℚ) by push_cast; ring]
      rw [Int.cast_lt]
      have hpos : 0 < Int.emod a b := lt_of_le_of_ne hmod (Ne.symm h)
      nlinarith
    · rw [div_le_iff₀ hbQ]
      rw [show (((Int.ediv a b + 1 : ℤ) : ℚ)) * b = (((Int.ediv a b + 1) * b : ℤ) : ℚ) by push_cast; ring]
      rw [Int.cast_le]
      nlinarith

/-- Claim C1 counterexample: with the environment tag resolved to "test"
(which is neither "production" nor absent-as-development), the
configuration resolver nevertheless enables telemetry and secure-headers
strict mode, and the secure-headers builder emits the production CSP
(no unsafe-inline, upgrade-insecure-requests present) and HSTS — the
strict settings, contradicting the claim that any tag other than
"production" yields the permissive development settings. -/
theorem c1_counterexample :
    mwResolvedNodeEnv { nodeEnv := some "test" } (some { nodeEnv := some "test" }) =
      some "test" ∧
    ("test" : String) ≠ "production" ∧
    (getMiddlewareConfig { nodeEnv := some "test" }
      (some { nodeEnv := some "test" })).telemetry.enabled = true ∧
    (getMiddlewareConfig { nodeEnv := some "test" }
      (some { nodeEnv := some "test" })).secureHeaders.strictMode = some true ∧
    (getSecureHeadersConfig { nodeEnv := some "test" }
      (some { nodeEnv := some "test" })).contentSecurityPolicy.upgradeInsecureRequests
      = true ∧
    "\x27unsafe-inline\x27" ∉
      (getSecureHeadersConfig { nodeEnv := some "test" }
        (some { nodeEnv := some "test" })).contentSecurityPolicy.scriptSrc ∧
    (getSecureHeadersConfig { nodeEnv := some "test" }
      (some { nodeEnv := some "test" })).strictTransportSecurity =
      some "max-age=63072000; includeSubDomains; preload" := by
  refine ⟨rfl, by decide, rfl, rfl, rfl, by decide, rfl⟩

/-- Claim C1 (amended): the strict settings — telemetry enabled,
secure-headers strict mode, production CSP and HSTS — activate exactly
when the respective resolver's probe does not find the environment tag
"development"; an absent tag or any other value (including "test")
yields the strict settings, and only "development" yields the permissive
development settings. -/
theorem c1_amended (b : EnvVars) (p : Option EnvVars) (e : EnvVars) :
    ((getMiddlewareConfig b p).telemetry.enabled = !(mwIsDevelopment b p)) ∧
    ((getMiddlewareConfig b p).secureHeaders.strictMode =
      some (!(mwIsDevelopment b p))) ∧
    ((getSecureHeadersConfig e p).contentSecurityPolicy =
      (if shIsDevelopment e p then devCsp else prodCsp)) ∧
    ((getSecureHeadersConfig e p).strictTransportSecurity =
      (if shIsDevelopment e p then none
       else some "max-age=63072000; includeSubDomains; preload")) ∧
    (mwIsDevelopment b p = true ↔
      (mwResolvedNodeEnv b p = some "development" ∨
        p.elim false (fun q => q.nodeEnv == some "development") = true)) := by
  refine ⟨rfl, rfl, rfl, rfl, ?_⟩
  simp [mwIsDevelopment, mwResolvedNodeEnv]

/-- Claim C2 counterexample: with `CLERK_SECRET_KEY` absent from both the
platform binding and the process environment, the guarded route responds
500 "Authentication error" — not the claimed 401 — because the
configuration error's message contains neither "Unauthorized" nor
"Invalid"; and an SDK rejection (even one whose message says "Invalid
token") escapes the middleware's catch, because the try block returns the
SDK promise without `await`, and is rendered by the central translator as
a 500 INTERNAL_SERVER_ERROR envelope, not a 401. -/
theorem c2_counterexample :
    (clerkAuthResponse {} .unauthenticated false "/api/users" "ts").map Prod.fst =
      some 500 ∧
    (clerkAuthResponse {} .unauthenticated false "/api/users" "ts").bind
      errMessageOf = some (.str "Authentication error") ∧
    clerkAuthThrown
        { bindingSecretKey := some "sk", bindingVitePublishableKey := some "pk" }
        (.sdkThrow "Invalid token" "stack") =
      .error (.jsError "Invalid token" "stack") ∧
    (clerkAuthResponse
        { bindingSecretKey := some "sk", bindingVitePublishableKey := some "pk" }
        (.sdkThrow "Invalid token" "stack") false "/api/users" "ts").map Prod.fst =
      some 500 ∧
    (clerkAuthResponse
        { bindingSecretKey := some "sk", bindingVitePublishableKey := some "pk" }
        (.sdkThrow "Invalid token" "stack") false "/api/users" "ts").bind
      errCodeOf = some (.str "INTERNAL_SERVER_ERROR") ∧
    (500 : Nat) ≠ 401 := by
  refine ⟨rfl, rfl, rfl, rfl, rfl, by decide⟩

/-- Claim C2 (amended): only a missing bearer token yields HTTP 401 (the
fixed message "Unauthorized: Authentication required", raised in the
middleware's callback and rendered by the central translator).  A missing
`CLERK_SECRET_KEY` (absent from both the platform binding and the process
environment) yields HTTP 500 "Authentication error".  SDK rejections
during verification — expired or invalid tokens included — bypass the
middleware's catch entirely (the try block returns the SDK promise
without `await`, so the "Unauthorized"/"Invalid" → 401 mapping in the
catch is dead code for them) and surface through the central translator
as 500 INTERNAL_SERVER_ERROR envelopes. -/
theorem c2_amended (e : ClerkEnv) (o : SdkOutcome) (m st s k : String)
    (isDev : Bool) (path ts : String) :
    (jsTruthy e.bindingSecretKey = false → jsTruthy e.processSecretKey = false →
      (clerkAuthResponse e o isDev path ts).map Prod.fst = some 500 ∧
      (clerkAuthResponse e o isDev path ts).bind errMessageOf =
        some (.str "Authentication error")) ∧
    (getClerkSecretKey e = .ok s → getClerkPublishableKey e = .ok k →
      (clerkAuthResponse e .unauthenticated isDev path ts).map Prod.fst =
        some 401 ∧
      (clerkAuthResponse e .unauthenticated isDev path ts).bind errMessageOf =
        some (.str "Unauthorized: Authentication required")) ∧
    (getClerkSecretKey e = .ok s → getClerkPublishableKey e = .ok k →
      clerkAuthThrown e (.sdkThrow m st) = .error (.jsError m st) ∧
      (clerkAuthResponse e (.sdkThrow m st) isDev path ts).map Prod.fst =
        some 500 ∧
      (clerkAuthResponse e (.sdkThrow m st) isDev path ts).bind errMessageOf =
        some (.str (if isDev then m else "Internal server error"))) := by
  refine ⟨?_, ?_, ?_⟩
  · intro h1 h2
    have hsec : getClerkSecretKey e =
        .error "CLERK_SECRET_KEY must be set in environment variables" := by
      simp [getClerkSecretKey, h1, h2]
    have hcatch : clerkCatch "CLERK_SECRET_KEY must be set in environment variables" =
        .httpException 500 "Authentication error" none := rfl
    simp [clerkAuthResponse, clerkAuthThrown, hsec, hcatch, errorHandler,
      errMessageOf, errEnvelope, Json.getField, List.lookup]
  · intro h1 h2
    simp [clerkAuthResponse, clerkAuthThrown, h1, h2, errorHandler,
      errMessageOf, errEnvelope, Json.getField, List.lookup]
  · intro h1 h2
    refine ⟨by simp [clerkAuthThrown, h1, h2], ?_, ?_⟩ <;>
      by_cases hd : isDev <;>
        simp [clerkAuthResponse, clerkAuthThrown, h1, h2, hd, errorHandler,
          errMessageOf, errEnvelope, Json.getField, List.lookup]

/-- Claim C2 witness: with both keys configured, an unauthenticated
request is answered 401; with no secret configured, and for an SDK
rejection, the answer is 500. -/
theorem c2_witness :
    (clerkAuthResponse
        { bindingSecretKey := some "sk", bindingVitePublishableKey := some "pk" }
        .unauthenticated false "/api/users" "ts").map Prod.fst = some 401 ∧
    (clerkAuthResponse {} .unauthenticated false "/api/users" "ts").map
      Prod.fst = some 500 ∧
    (clerkAuthResponse
        { bindingSecretKey := some "sk", bindingVitePublishableKey := some "pk" }
        (.sdkThrow "jwt expired" "stack") false "/api/users" "ts").map
      Prod.fst = some 500 := by
  refine ⟨((c2_amended
      { bindingSecretKey := some "sk", bindingVitePublishableKey := some "pk" }
      .unauthenticated "" "" "sk" "pk" false "/api/users" "ts").2.1 rfl rfl).1,
    ((c2_amended {} .unauthenticated "" "" "" "" false "/api/users" "ts").1
      rfl rfl).1,
    ((c2_amended
      { bindingSecretKey := some "sk", bindingVitePublishableKey := some "pk" }
      (.sdkThrow "jwt expired" "stack") "jwt expired" "stack"
      "sk" "pk" false "/api/users" "ts").2.2 rfl rfl).2.1⟩

/-- Claim C3 counterexample: the error translator's development switch is
the runtime key, not the resolved environment tag.  On the workerd
runtime with the non-production tag "test", the literal message "boom" is
suppressed in favor of "Internal server error" (the claim requires it to
be included); on a non-workerd runtime with the tag "production", the
literal message is included (the claim requires the generic string). -/
theorem c3_counterexample :
    errMessageOf (errorHandlerFull "workerd" (some "test") "/api/x" "ts"
        (.jsError "boom" "stack")) = some (.str "Internal server error") ∧
    ("test" : String) ≠ "production" ∧
    errMessageOf (errorHandlerFull "node" (some "production") "/api/x" "ts"
        (.jsError "boom" "stack")) = some (.str "boom") := by
  refine ⟨rfl, by decide, rfl⟩

/-- Claim C3 (amended): an unclassified thrown error yields status 500,
and the literal exception message is included in `error.message` exactly
when the handler's development switch holds — that is, when the runtime
key differs from "workerd" or `process.env.NODE_ENV` equals
"development"; otherwise the generic "Internal server error" string is
substituted.  The resolved environment tag decides this only through the
"development" comparison, not through "production". -/
theorem c3_amended (rk : String) (env : Option String) (m stack path ts : String) :
    (errorHandlerFull rk env path ts (.jsError m stack)).1 = 500 ∧
    errMessageOf (errorHandlerFull rk env path ts (.jsError m stack)) =
      some (.str (if errDevMode rk env then m else "Internal server error")) ∧
    (errDevMode rk env = true ↔ (rk ≠ "workerd" ∨ env = some "development")) := by
  refine ⟨?_, ?_, ?_⟩
  · by_cases h : errDevMode rk env <;>
      simp [errorHandlerFull, errorHandler, h]
  · by_cases h : errDevMode rk env <;>
      simp [errorHandlerFull, errorHandler, h, errMessageOf, errEnvelope,
        Json.getField, List.lookup]
  · simp [errDevMode]

/-- Claim C4 counterexample: the readiness probe's 503 failure response is
`{ status, timestamp, database, error: <string> }`, which is not the
`{ error: { message, ... }, timestamp, path }` envelope shape the claim
asserts for every error response of the API surface. -/
theorem c4_counterexample :
    (healthReady true false "ts" (some "connection refused")).1 = 503 ∧
    isErrorEnvelope (healthReady true false "ts" (some "connection refused")).2 =
      false := by
  refine ⟨rfl, rfl⟩

/-- Claim C4 (amended): every response of the centralized error
translator and of the not-found handler is a JSON body of the envelope
shape `{ error: { message, code?, details? }, timestamp, path }`, but the
readiness probe's 503 failure response is not: it uses its own
`{ status, timestamp, database, error }` shape with a bare string under
`error`. -/
theorem c4_amended (isDev : Bool) (path ts : String) (e : ThrownError)
    (em : Option String) :
    isErrorEnvelope (errorHandler isDev path ts e).2 = true ∧
    isErrorEnvelope (notFoundHandler path ts).2 = true ∧
    isErrorEnvelope (healthReady true false ts em).2 = false := by
  refine ⟨?_, rfl, rfl⟩
  cases e with
  | httpException s m c =>
    cases isDev with
    | false => rfl
    | true => cases c with
      | none => rfl
      | some d => rfl
  | withCode code m st =>
    by_cases h1 : code = "P2002"
    · subst h1
      cases isDev <;> rfl
    · by_cases h2 : code = "P2025"
      · subst h2
        cases isDev <;> rfl
      · cases isDev <;>
          simp [errorHandler, h1, h2, errEnvelope, isErrorEnvelope,
            Json.getField, List.lookup]
  | withIssues issues => cases isDev <;> rfl
  | jsError m st => cases isDev <;> rfl
  | nonErrorValue => cases isDev <;> rfl

/-- Claim C5: when the `authorId` of a `POST /posts` body matches no
persisted user, the explicit author-existence check raises 404 "Author
not found" before any insert, and the database state is unchanged. -/
theorem c5_author_check (db : DB) (input : CreatePostInput) (isDev : Bool)
    (path ts : String)
    (h : ∀ u ∈ db.users, u.id ≠ input.authorId) :
    (postsPostRoute db input isDev path ts).1.1 = 404 ∧
    errMessageOf (postsPostRoute db input isDev path ts).1 =
      some (.str "Author not found") ∧
    (postsPostRoute db input isDev path ts).2 = db := by
  have hfind : userFindUnique db input.authorId = none := by
    rw [userFindUnique, List.find?_eq_none]
    intro u hu
    simpa using h u hu
  refine ⟨?_, ?_, ?_⟩ <;>
    simp [postsPostRoute, postsPostHandler, hfind, errorHandler, errMessageOf,
      errEnvelope, Json.getField, List.lookup]

/-- Claim C5 witness: a one-user database and the author id 999999. -/
theorem c5_witness :
    (∀ u ∈ sampleDb.users, u.id ≠ samplePostInput.authorId) ∧
    (postsPostRoute sampleDb samplePostInput false "/api/posts" "ts").1.1 = 404 ∧
    (postsPostRoute sampleDb samplePostInput false "/api/posts" "ts").2 = sampleDb := by
  refine ⟨by decide, (c5_author_check _ _ _ _ _ (by decide)).1,
    (c5_author_check _ _ _ _ _ (by decide)).2.2⟩

/-- Claim C6: for valid (positive integer) page and limit values, both
list handlers return at most `limit` rows and a `totalPages` equal to the
ceiling of `total / limit`. -/
theorem c6_list_pagination (rowsU : List User) (rowsP : List Post)
    (page limit : Nat) (_hp : 1 ≤ page) (hl : 1 ≤ limit) :
    (usersGetList rowsU page limit).1.length ≤ limit ∧
    (usersGetList rowsU page limit).2.totalPages =
      .num ⌈(rowsU.length : ℚ) / (limit : ℚ)⌉ ∧
    (postsGetList rowsP page limit).1.length ≤ limit ∧
    (postsGetList rowsP page limit).2.totalPages =
      .num ⌈(rowsP.length : ℚ) / (limit : ℚ)⌉ := by
  have key : ∀ (total : Nat),
      jsCeilDiv (.num total) (.num limit) = .num ⌈(total : ℚ) / (limit : ℚ)⌉ := by
    intro total
    have hl0 : ((limit : Int)) ≠ 0 := by
      exact_mod_cast Nat.one_le_iff_ne_zero.mp hl
    have hlpos : (0 : Int) < (limit : Int) := by exact_mod_cast hl
    simp only [jsCeilDiv, if_neg hl0]
    rw [intCeilDiv_eq_ceil _ _ hlpos]
    norm_num
  have len : ∀ {α : Type} (rows : List α),
      (listSlice rows page limit).length ≤ limit := by
    intro α rows
    simp [listSlice]
  exact ⟨len rowsU, by simpa [usersGetList, listPagination] using key rowsU.length,
    len rowsP, by simpa [postsGetList, listPagination] using key rowsP.length⟩

/-- Claim C6 witness: three rows with page 2 and limit 2 give at most two
rows and two total pages. -/
theorem c6_witness :
    (1 : Nat) ≤ 2 ∧
    (usersGetList [{ id := 1, email := "a", name := none },
      { id := 2, email := "b", name := none },
      { id := 3, email := "c", name := none }] 2 2).1.length ≤ 2 ∧
    (usersGetList [{ id := 1, email := "a", name := none },
      { id := 2, email := "b", name := none },
      { id := 3, email := "c", name := none }] 2 2).2.totalPages = .num 2 := by
  refine ⟨by norm_num, (c6_list_pagination _ [] 2 2 (by norm_num) (by norm_num)).1,
    ((c6_list_pagination _ [] 2 2 (by norm_num) (by norm_num)).2.1).trans ?_⟩
  norm_num
  rw [show ((3 : ℚ) / 2) = 3 / 2 from rfl]
  norm_num [Int.ceil_eq_iff]

/-- Claim C7: creating a user whose email is already persisted yields
status 409 (not 500): the handler converts the ORM unique-constraint
error (code P2002) into an `HTTPException 409` with the fixed message,
which the centralized translator renders in the error envelope with the
code "409". -/
theorem c7_duplicate_email (db : DB) (input : CreateUserInput) (em es : String)
    (isDev : Bool) (path ts : String)
    (h : ∃ u ∈ db.users, u.email = input.email) :
    (usersPostRoute db input em es isDev path ts).1.1 = 409 ∧
    errMessageOf (usersPostRoute db input em es isDev path ts).1 =
      some (.str "User with this email already exists") ∧
    errCodeOf (usersPostRoute db input em es isDev path ts).1 =
      some (.str "409") ∧
    usersPostHandler db input em es =
      .error (.httpException 409 "User with this email already exists" none) := by
  have hdup : db.users.any (fun u => u.email == input.email) = true := by
    rcases h with ⟨u, hu, he⟩
    simp only [List.any_eq_true]
    exact ⟨u, hu, by simp [he]⟩
  have hcreate : userCreate db input.email input.name em es =
      .error (.withCode "P2002" em es) := by
    simp [userCreate, hdup]
  have hhandler : usersPostHandler db input em es =
      .error (.httpException 409 "User with this email already exists" none) := by
    simp [usersPostHandler, hcreate]
  have hts : (toString (409 : Nat)) = "409" := rfl
  refine ⟨?_, ?_, ?_, hhandler⟩ <;>
    simp [usersPostRoute, hhandler, errorHandler, errMessageOf, errCodeOf,
      errEnvelope, Json.getField, List.lookup, hts]

/-- Claim C7 witness: re-posting an already-persisted email. -/
theorem c7_witness :
    (∃ u ∈ sampleDb.users, u.email = sampleUserInput.email) ∧
    (usersPostRoute sampleDb sampleUserInput "m" "s" false "/api/users"
      "ts").1.1 = 409 := by
  refine ⟨⟨_, List.mem_singleton.mpr rfl, rfl⟩,
    (c7_duplicate_email _ _ "m" "s" false "/api/users" "ts"
      ⟨_, List.mem_singleton.mpr rfl, rfl⟩).1⟩

/-- Claim C8: `GET /health` always answers 200 with `status="ok"`, a
timestamp and the service name; `GET /health/live` always answers 200
with `status="alive"`; `GET /health/ready` answers 200 with
`database="connected"` exactly when no attached probe fails (including
the branch with no database client, where no probe runs), and 503 with
`database="disconnected"` exactly when the attached probe fails. -/
theorem c8_health (ts : String) (att ok : Bool) (em : Option String) :
    (healthRoot ts).1 = 200 ∧
    (healthRoot ts).2.getField "status" = some (.str "ok") ∧
    (healthRoot ts).2.getField "timestamp" = some (.str ts) ∧
    (healthRoot ts).2.getField "service" = some (.str "panya-api") ∧
    (healthLive ts).1 = 200 ∧
    (healthLive ts).2.getField "status" = some (.str "alive") ∧
    (((healthReady att ok ts em).1 = 200 ∧
        (healthReady att ok ts em).2.getField "database" = some (.str "connected"))
      ↔ (att = false ∨ ok = true)) ∧
    (((healthReady att ok ts em).1 = 503 ∧
        (healthReady att ok ts em).2.getField "database" = some (.str "disconnected"))
      ↔ (att = true ∧ ok = false)) := by
  cases att <;> cases ok <;>
    simp [healthRoot, healthLive, healthReady, Json.getField, List.lookup]

/-- Claim C9: the completion-record severity is `error` for status ≥ 500,
`warn` for 400 ≤ status < 500 and `info` otherwise, and the record is
emitted exactly when that severity is at or above the configured minimum
level in the total order debug < info < warn < error (`levelRank` being
that order). -/
theorem c9_logger (s : Nat) (cfg : LogLevel) :
    (statusToLevel s = .error ↔ 500 ≤ s) ∧
    (statusToLevel s = .warn ↔ 400 ≤ s ∧ s < 500) ∧
    (statusToLevel s = .info ↔ s < 400) ∧
    (completionEmitted cfg s = true ↔
      levelRank cfg ≤ levelRank (statusToLevel s)) ∧
    (levelRank .debug < levelRank .info ∧ levelRank .info < levelRank .warn ∧
      levelRank .warn < levelRank .error) := by
  have hord : ∀ a b : LogLevel, (shouldLog a b = true ↔ levelRank a ≤ levelRank b) := by
    intro a b
    cases a <;> cases b <;> decide
  refine ⟨?_, ?_, ?_, hord cfg (statusToLevel s), by decide⟩ <;>
    · unfold statusToLevel
      split_ifs <;> simp <;> omega

/-- Claim C10: the pagination validator never rejects — any optional
query strings parse successfully — a non-numeric value is transformed to
`NaN` and the string "0" to 0, and the handlers' unguarded arithmetic
then produces a `NaN` skip and `NaN` or `Infinity` `totalPages` fields
instead of a 400 validation error. -/
theorem c10_pagination_unchecked :
    (∀ p l : Option String, (paginationParse p l).isOk = true) ∧
    paginationTransform (some "abc") 1 = .nan ∧
    paginationTransform (some "0") 10 = .num 0 ∧
    paginationTransform none 10 = .num 10 ∧
    (listPagination (.num 1) .nan 5).totalPages = .nan ∧
    (listPagination (.num 1) (.num 0) 5).totalPages = .posInf ∧
    (listPagination (.num 1) (.num 0) 0).totalPages = .nan ∧
    listSkip .nan (.num 10) = .nan := by
  exact ⟨fun p l => rfl, rfl, rfl, rfl, rfl, rfl, rfl, rfl⟩

end Boilerplate
